import Mathlib

/-!
Shallow embedding of `routine.py` (man4red/opsworks): an operational
routine that lists EC2 instances, probes their health (TCP socket and
HTTP HEAD), retires stopped unreachable instances (snapshot then
terminate), prunes old AMIs, and renders a report table.

External collaborators (the AWS API via boto3, the requests library,
raw sockets) are modelled as oracles passed in as function arguments;
the routine's own control flow and data transformations are translated
directly from the source.
-/

namespace Routine

/-- The accepted HTTP status codes (`http_valid_codes` in the source). -/
def http_valid_codes : List Nat :=
  [200, 201, 202, 203, 204, 205, 206, 300, 301, 302, 303, 304, 307, 308]

/-- A Python value that can sit in the `status_code` field of a result
record built by `main`: `None` (probe skipped), `False` (HTTP probe
failed with a connection error), or an integer status code. -/
inductive StatusCode where
  | vNone : StatusCode
  | vFalse : StatusCode
  | vCode (n : Nat) : StatusCode
  deriving DecidableEq, Repr

/-- Python membership test `status_code in http_valid_codes`: only an
integer can be a member of the list of integers; `None` and `False`
are never members. -/
def statusInValidCodes : StatusCode → Bool
  | .vCode n => http_valid_codes.contains n
  | .vNone => false
  | .vFalse => false

/-- An instance record as produced by `get_instances`. -/
structure InstanceRecord where
  instance_name : Option String
  instance_fqdn : Option String
  instance_id : String
  instance_type : String
  instance_state : String
  deriving DecidableEq, Repr

/-- A per-instance result record as accumulated by `main` (the
`instance_type` field is dropped, health fields are added). -/
structure ResultRecord where
  instance_name : Option String
  instance_fqdn : Option String
  instance_id : String
  is_socket_open : Bool
  status_code : StatusCode
  instance_state : String
  deriving DecidableEq, Repr

/-- The retirement test of `main` (line 356 of the source):
`not result['is_socket_open'] and result['status_code'] not in
http_valid_codes and result['instance_state'] == 'stopped'`. -/
def retire_condition (r : ResultRecord) : Bool :=
  !r.is_socket_open && !statusInValidCodes r.status_code
    && (r.instance_state == "stopped")

/-- One iteration of the retirement loop of `main` on a single result
record.  `terminate_ok` is the oracle for `terminate_instance` (the
boolean it returns).  Returns the possibly updated record together with
a flag recording whether the actuator (`create_ami_and_add_tag` then
`terminate_instance`) was invoked for this record. -/
def retire_step (terminate_ok : String → Bool) (r : ResultRecord) :
    ResultRecord × Bool :=
  if retire_condition r then
    let r' := if terminate_ok r.instance_id
      then { r with instance_state := "terminated" } else r
    (r', true)
  else (r, false)

/-- The retirement loop of `main` over the whole result list. -/
def retirement_pass (terminate_ok : String → Bool)
    (results : List ResultRecord) : List (ResultRecord × Bool) :=
  results.map (retire_step terminate_ok)

/-! ## Health prober: `check_socket` and `get_http_status_code` -/

/-- The timeout actually installed on the socket by `check_socket`
before the connect attempt.  The source has `s.settimeout(1)`: the
literal `1`, not the `timeout` parameter. -/
def check_socket_timeout_used (timeout : Nat) : Nat :=
  let _ := timeout
  1

/-- `check_socket(host, port, timeout)`.  The operating-system connect
is the oracle `connect_ex`, mapping the timeout installed on the socket
to the connect result code; the function returns `True` exactly when
that code is `0`. -/
def check_socket (connect_ex : Nat → Int) (timeout : Nat) : Bool :=
  connect_ex (check_socket_timeout_used timeout) == 0

/-- Exceptions the `requests` library can raise from a HEAD request. -/
inductive ReqError where
  | dnsFailure : ReqError
  | connRefused : ReqError
  | connTimeout : ReqError
  | readTimeout : ReqError
  | tooManyRedirects : ReqError
  | otherError : ReqError
  deriving DecidableEq, Repr

/-- Which of those exceptions are (subclasses of)
`requests.ConnectionError` — the one exception class the source
catches.  In the requests hierarchy, DNS failures and refused
connections raise `ConnectionError`, and `ConnectTimeout` is a subclass
of `ConnectionError`; `ReadTimeout` and `TooManyRedirects` are not. -/
def isConnectionError : ReqError → Bool
  | .dnsFailure => true
  | .connRefused => true
  | .connTimeout => true
  | .readTimeout => false
  | .tooManyRedirects => false
  | .otherError => false

/-- The URL scheme chosen by `get_http_status_code`:
`https://` when `port == 443`, else `http://`. -/
def urlScheme (port : Nat) : String :=
  if port == 443 then "https://" else "http://"

/-- `get_http_status_code(host, port, max_redirects)`.  The `request`
oracle is the session HEAD request on the composed URL, yielding either
a final status code or a requests exception.  `Except.ok (some c)` is
returning the status code, `Except.ok none` is returning `False`
(the `except requests.ConnectionError` branch), and `Except.error e` is
an uncaught exception propagating out of the function. -/
def get_http_status_code (request : String → Except ReqError Nat)
    (host : String) (port : Nat) : Except ReqError (Option Nat) :=
  match request (urlScheme port ++ host) with
  | .ok code => .ok (some code)
  | .error e => if isConnectionError e then .ok none else .error e

/-! ## Inventory lister: `get_instances` -/

/-- One EC2 tag. -/
structure EC2Tag where
  key : String
  value : String
  deriving DecidableEq, Repr

/-- The fields of a provider-returned instance that `get_instances`
reads. -/
structure EC2Instance where
  tags : List EC2Tag
  id : String
  instance_type : String
  state : String
  deriving DecidableEq, Repr

/-- The tag-scanning loop of `get_instances`: starting from
`instance_name = None` and `instance_fqdn = None`, every tag is
inspected in order and a `Name` (resp. `FQDN`) tag overwrites the
first (resp. second) component.  Returns `(instance_name,
instance_fqdn)`. -/
def scanTags (tags : List EC2Tag) : Option String × Option String :=
  tags.foldl
    (fun acc tag =>
      (if tag.key == "Name" then some tag.value else acc.1,
       if tag.key == "FQDN" then some tag.value else acc.2))
    (none, none)

/-- The record `get_instances` appends for one provider instance. -/
def instanceToRecord (inst : EC2Instance) : InstanceRecord :=
  { instance_name := (scanTags inst.tags).1
    instance_fqdn := (scanTags inst.tags).2
    instance_id := inst.id
    instance_type := inst.instance_type
    instance_state := inst.state }

/-- Python exceptions relevant to `get_instances`. -/
inductive PyError where
  | clientError : PyError
  | otherException : PyError
  | unboundLocal : PyError
  deriving DecidableEq, Repr

/-- `get_instances(key, value, state)`.  The `query` oracle is the
filtered `ec2_resource.instances` collection (or the exception the
query raises).  On success the per-instance records are built and
returned.  On failure, the `except` clauses catch and log the
exception, but the variable `instances` was never assigned, so the
subsequent `for instance in instances:` raises an unbound-local
(`NameError`/`UnboundLocalError`) which is outside the `try` block and
propagates to the caller. -/
def get_instances (query : Except PyError (List EC2Instance)) :
    Except PyError (List InstanceRecord) :=
  match query with
  | .ok instances => .ok (instances.map instanceToRecord)
  | .error _ => .error PyError.unboundLocal

/-! ## Result-record construction in `main` -/

/-- The body of the probe loop of `main` for one instance.  `sock_open`
is the value returned by `check_socket(instance_fqdn, 80)`; `request`
is the HTTP oracle threaded into `get_http_status_code`, which is
called only when the socket is open.  Returns the result record that
`main` appends, or `none` when `get_http_status_code` raised (the
uncaught exception aborts `main`, so no record is appended). -/
def build_result (request : String → Except ReqError Nat)
    (inst : InstanceRecord) (sock_open : Bool) : Option ResultRecord :=
  let status_code :=
    if sock_open then
      match get_http_status_code request (inst.instance_fqdn.getD "") 80 with
      | .error _ => none
      | .ok (some c) => some (StatusCode.vCode c)
      | .ok none => some StatusCode.vFalse
    else some StatusCode.vNone
  match status_code with
  | none => none
  | some sc => some
    { instance_name := inst.instance_name
      instance_fqdn := inst.instance_fqdn
      instance_id := inst.instance_id
      is_socket_open := sock_open
      status_code := sc
      instance_state := inst.instance_state }

/-! ## Retention pruner: `clenup_old_ami`

Python `datetime` values compare field-lexicographically and subtract
`timedelta`s exactly; both operations are isomorphic to arithmetic on
seconds-since-epoch, so parsed timestamps are carried as integer
seconds.  `timedelta(days=days)` is `days * 86400` seconds. -/

/-- Seconds in a day, the value of `timedelta(days=1)`. -/
def secondsPerDay : Int := 86400

/-- The fields of a provider-returned image that `clenup_old_ami`
reads.  `creationDate` is the raw ISO string reported in the record;
`created_parsed` is `datetime.strptime(creationDate[:-5],
"%Y-%m-%dT%H:%M:%S")` expressed as seconds since the epoch. -/
structure ImageInfo where
  imageId : String
  name : String
  creationDate : String
  created_parsed : Int
  state : String
  deriving DecidableEq, Repr

/-- The per-image record `clenup_old_ami` accumulates. -/
structure ImageResult where
  image_id : String
  image_name : String
  image_created : String
  image_state : String
  action : Option String
  deriving DecidableEq, Repr

/-- The record appended for one image with the given `action`. -/
def mkImageResult (img : ImageInfo) (action : Option String) : ImageResult :=
  { image_id := img.imageId
    image_name := img.name
    image_created := img.creationDate
    image_state := img.state
    action := action }

/-- `clenup_old_ami(days)`.  `dereg_ok` is the oracle for
`ec2_client.deregister_image` (`false` means it raised `ClientError`);
`utc` is `datetime.utcnow()` in seconds, taken once before the loop;
the image list is the oracle for `get_owned_images('name', 'egor*')`.
An image strictly older than `utc - timedelta(days=days)` is
deregistered and its record carries `action = 'deregistered'`; any
other image is left alone with `action = None`.  A `ClientError` from
`deregister_image` makes the function return `False` (here `none`) at
once, discarding the records accumulated so far. -/
def clenup_old_ami (dereg_ok : String → Bool) (utc : Int) (days : Int) :
    List ImageInfo → Option (List ImageResult)
  | [] => some []
  | img :: rest =>
    let date_N_days_ago := utc - days * secondsPerDay
    if img.created_parsed < date_N_days_ago then
      if dereg_ok img.imageId then
        (clenup_old_ami dereg_ok utc days rest).map
          (fun rs => mkImageResult img (some "deregistered") :: rs)
      else none
    else
      (clenup_old_ami dereg_ok utc days rest).map
        (fun rs => mkImageResult img none :: rs)

/-! ## Report formatter: `format_as_table`

Rows are Python dictionaries; they are modelled as association lists
from key to rendered string value (every claim exercises only keys
present in every row, so the `KeyError` path is not modelled). -/

/-- A table row: a dictionary from key to (already rendered) value. -/
abbrev Row := List (String × String)

/-- Dictionary lookup `row[key]` (the keys used are present). -/
def rowGet (row : Row) (key : String) : String :=
  (((row.find? (fun p => p.1 == key)).map (fun p => p.2))).getD ""

/-- Python string comparison: lexicographic by code point. -/
def charListLe : List Char → List Char → Bool
  | [], _ => true
  | _ :: _, [] => false
  | x :: xs, y :: ys =>
    if x.val.toNat < y.val.toNat then true
    else if y.val.toNat < x.val.toNat then false
    else charListLe xs ys

/-- The `<=` of Python on the strings' characters. -/
def pyStrLe (a b : String) : Bool := charListLe a.data b.data

/-- Stable insertion of a row into an already sorted list: the new row
goes before the first row it compares `le` to, so earlier rows stay
before equal later rows. -/
def pyInsert (le : Row → Row → Bool) (x : Row) : List Row → List Row
  | [] => [x]
  | y :: ys => if le x y then x :: y :: ys else y :: pyInsert le x ys

/-- Stable sort, the specified behavior of Python `sorted` (stability
is guaranteed by the language, also under `reverse=True`, which flips
the comparison but keeps equal elements in original order). -/
def pySorted (le : Row → Row → Bool) : List Row → List Row
  | [] => []
  | x :: xs => pyInsert le x (pySorted le xs)

/-- `sorted(data, key=itemgetter(sort_by_key), reverse=rev)`. -/
def sortRows (sort_by_key : String) (rev : Bool) (data : List Row) :
    List Row :=
  if rev then
    pySorted (fun x y => pyStrLe (rowGet y sort_by_key) (rowGet x sort_by_key)) data
  else
    pySorted (fun x y => pyStrLe (rowGet x sort_by_key) (rowGet y sort_by_key)) data

/-- The divider row: `dict(zip(keys, ['-' * len(name) for name in
header]))`. -/
def dividerRow (keys : List String) (header : List String) : Row :=
  keys.zip (header.map (fun name => String.mk (List.replicate name.length '-')))

/-- The header row: `dict(zip(keys, header))`. -/
def headerRow (keys : List String) (header : List String) : Row :=
  keys.zip header

/-- The value of the local variable `data` after the optional sort and
the optional header/divider insertion — the list the widths and the
rendering are computed from. -/
def processedData (data : List Row) (keys : List String)
    (header : Option (List String)) (sort_by_key : Option String)
    (sort_order_reverse : Bool) : List Row :=
  let data1 := match sort_by_key with
    | some k => sortRows k sort_order_reverse data
    | none => data
  match header with
  | some h => headerRow keys h :: dividerRow keys h :: data1
  | none => data1

/-- Column widths: for each key, `max(len(str(column[key])) for column
in data)` (the claims only exercise nonempty data, where Python `max`
is defined). -/
def columnWidths (keys : List String) (data : List Row) : List Nat :=
  keys.map (fun k => (data.map (fun row => (rowGet row k).length)).foldl max 0)

/-- `'%-*s'` formatting: left-justify to the column width. -/
def ljust (s : String) (w : Nat) : String :=
  s.pushn ' ' (w - s.length)

/-- One formatted line: the fields left-justified to their column
widths, joined by single spaces (the format string
`('%-*s ' * len(keys)).strip() + '\n'` keeps no trailing separator but
the padding of the last field remains), newline-terminated. -/
def renderLine (keys : List String) (widths : List Nat) (row : Row) :
    String :=
  String.intercalate " "
    ((keys.zip widths).map (fun p => ljust (rowGet row p.1) p.2)) ++ "\n"

/-- `format_as_table(data, keys, header, sort_by_key,
sort_order_reverse)`.  The first component is the returned string.  The
second component is the caller's `data` list after the call: when a
sort key is given, `data = sorted(...)` rebinds the local name to a
fresh list and the later `data.insert(0, ...)` calls mutate only that
copy; when no sort key is given but a header is, the two inserts mutate
the caller's list in place. -/
def format_as_table (data : List Row) (keys : List String)
    (header : Option (List String) := none)
    (sort_by_key : Option String := none)
    (sort_order_reverse : Bool := false) : String × List Row :=
  let processed := processedData data keys header sort_by_key sort_order_reverse
  let widths := columnWidths keys processed
  let out := processed.foldl (fun acc row => acc ++ renderLine keys widths row) ""
  let callerData :=
    if sort_by_key.isSome then data
    else processedData data keys header none sort_order_reverse
  (out, callerData)

/-! ## Helper lemmas -/

/-- The action flag of one retirement-loop iteration is exactly the
retirement test. -/
lemma retire_step_snd (terminate_ok : String → Bool) (r : ResultRecord) :
    (retire_step terminate_ok r).2 = retire_condition r := by
  unfold retire_step
  split <;> simp_all

/-- The retirement test, spelled out propositionally. -/
lemma retire_condition_iff (r : ResultRecord) :
    retire_condition r = true ↔
      (r.is_socket_open = false ∧ statusInValidCodes r.status_code = false ∧
        r.instance_state = "stopped") := by
  unfold retire_condition
  simp [Bool.and_eq_true, Bool.not_eq_true', beq_iff_eq, and_assoc]

/-- A sample result record used to instantiate hypotheses. -/
def sampleStopped : ResultRecord :=
  { instance_name := none
    instance_fqdn := none
    instance_id := "i-0abc"
    is_socket_open := false
    status_code := StatusCode.vNone
    instance_state := "stopped" }

/-! ## Claims -/

/-- C1: in the retirement loop of `main`, an instance's record triggers
the actuator (snapshot creation and termination) if and only if its
probed `is_socket_open` is `false`, its `status_code` is not a member
of `http_valid_codes`, and its inventory-reported state is `stopped`;
this holds for every record of the run, and a null (`None`) status code
is never a member of the accepted set. -/
theorem C1_retirement_rule (terminate_ok : String → Bool)
    (results : List ResultRecord) (i : Nat) (h : i < results.length) :
    (((retirement_pass terminate_ok results).get
        ⟨i, by simpa [retirement_pass] using h⟩).2 = true ↔
      ((results.get ⟨i, h⟩).is_socket_open = false ∧
        statusInValidCodes (results.get ⟨i, h⟩).status_code = false ∧
        (results.get ⟨i, h⟩).instance_state = "stopped")) ∧
    statusInValidCodes StatusCode.vNone = false := by
  refine ⟨?_, rfl⟩
  simp only [retirement_pass, List.get_eq_getElem, List.getElem_map]
  rw [retire_step_snd, retire_condition_iff]

/-- C1 witness: a concrete run with one stopped, unreachable record. -/
theorem C1_retirement_rule_witness :
    0 < ([sampleStopped] : List ResultRecord).length ∧
    ((((retirement_pass (fun _ => true) [sampleStopped]).get
        ⟨0, by simp [retirement_pass]⟩).2 = true ↔
      ((([sampleStopped] : List ResultRecord).get ⟨0, by decide⟩).is_socket_open = false ∧
        statusInValidCodes (([sampleStopped] : List ResultRecord).get ⟨0, by decide⟩).status_code = false ∧
        (([sampleStopped] : List ResultRecord).get ⟨0, by decide⟩).instance_state = "stopped")) ∧
    statusInValidCodes StatusCode.vNone = false) :=
  ⟨by decide, C1_retirement_rule (fun _ => true) [sampleStopped] 0 (by decide)⟩

/-- C2: `check_socket` does NOT install the caller-supplied timeout on
the socket — the source hardcodes `s.settimeout(1)` — so for the input
`timeout = 5` the timeout actually used is `1`, not `5`, although the
function does return `True` exactly when the connect result code is
`0`.  This contradicts the function's own docstring, which documents
the `timeout` parameter as the connection timeout. -/
theorem C2_timeout_ignored :
    check_socket_timeout_used 5 = 1 ∧ (1 : Nat) ≠ 5 ∧
    (∀ (connect_ex : Nat → Int) (timeout : Nat),
      check_socket connect_ex timeout = true ↔ connect_ex 1 = 0) := by
  refine ⟨rfl, by decide, fun connect_ex timeout => ?_⟩
  unfold check_socket check_socket_timeout_used
  simp [beq_iff_eq]

/-- C3: in a completed pruning pass, each image's record carries
`action = 'deregistered'` exactly when its parsed creation time is
strictly earlier than `utc - days` days; an image created exactly at
the cutoff is not pruned, and an unpruned image's record carries
`action = None`. -/
theorem C3_prune_cutoff (dereg_ok : String → Bool) (utc days : Int)
    (images : List ImageInfo) (rs : List ImageResult)
    (h : clenup_old_ami dereg_ok utc days images = some rs) :
    rs.length = images.length ∧
    ∀ i (hi : i < images.length) (hr : i < rs.length),
      (rs.get ⟨i, hr⟩).action =
        (if (images.get ⟨i, hi⟩).created_parsed < utc - days * secondsPerDay
         then some "deregistered" else none) := by
  induction images generalizing rs with
  | nil =>
    simp only [clenup_old_ami] at h
    cases h
    exact ⟨rfl, fun i hi _ => absurd hi (Nat.not_lt_zero i)⟩
  | cons img rest ih =>
    simp only [clenup_old_ami] at h
    by_cases hc : img.created_parsed < utc - days * secondsPerDay
    · rw [if_pos hc] at h
      by_cases hd : dereg_ok img.imageId
      · rw [if_pos hd, Option.map_eq_some'] at h
        obtain ⟨rs', hrs', hcons⟩ := h
        obtain ⟨hlen, hact⟩ := ih rs' hrs'
        subst hcons
        refine ⟨by simp [hlen], fun i hi hr => ?_⟩
        cases i with
        | zero => simp [mkImageResult, if_pos hc]
        | succ j =>
          simp only [List.get_eq_getElem, List.getElem_cons_succ]
          exact hact j (Nat.lt_of_succ_lt_succ hi) (Nat.lt_of_succ_lt_succ hr)
      · rw [if_neg hd] at h
        cases h
    · rw [if_neg hc, Option.map_eq_some'] at h
      obtain ⟨rs', hrs', hcons⟩ := h
      obtain ⟨hlen, hact⟩ := ih rs' hrs'
      subst hcons
      refine ⟨by simp [hlen], fun i hi hr => ?_⟩
      cases i with
      | zero => simp [mkImageResult, if_neg hc]
      | succ j =>
        simp only [List.get_eq_getElem, List.getElem_cons_succ]
        exact hact j (Nat.lt_of_succ_lt_succ hi) (Nat.lt_of_succ_lt_succ hr)

/-- C3 witness: with `utc = 0` and a seven-day retention, an image
eight days old is pruned while images six days old or exactly seven
days old are kept. -/
theorem C3_prune_cutoff_witness :
    clenup_old_ami (fun _ => true) 0 7
        [⟨"ami-1", "egor-old", "2019-12-24T00:00:00.000Z", -691200, "available"⟩,
         ⟨"ami-2", "egor-new", "2019-12-26T00:00:00.000Z", -518400, "available"⟩,
         ⟨"ami-3", "egor-edge", "2019-12-25T00:00:00.000Z", -604800, "available"⟩] =
      some [⟨"ami-1", "egor-old", "2019-12-24T00:00:00.000Z", "available", some "deregistered"⟩,
            ⟨"ami-2", "egor-new", "2019-12-26T00:00:00.000Z", "available", none⟩,
            ⟨"ami-3", "egor-edge", "2019-12-25T00:00:00.000Z", "available", none⟩] ∧
    ([⟨"ami-1", "egor-old", "2019-12-24T00:00:00.000Z", "available", some "deregistered"⟩,
      ⟨"ami-2", "egor-new", "2019-12-26T00:00:00.000Z", "available", none⟩,
      ⟨"ami-3", "egor-edge", "2019-12-25T00:00:00.000Z", "available", none⟩] :
        List ImageResult).length =
      ([⟨"ami-1", "egor-old", "2019-12-24T00:00:00.000Z", -691200, "available"⟩,
        ⟨"ami-2", "egor-new", "2019-12-26T00:00:00.000Z", -518400, "available"⟩,
        ⟨"ami-3", "egor-edge", "2019-12-25T00:00:00.000Z", -604800, "available"⟩] :
          List ImageInfo).length :=
  ⟨by decide,
   (C3_prune_cutoff (fun _ => true) 0 7 _ _ (by decide)).1⟩

/-- C4: a `ClientError` from `deregister_image` on any image that is
due for deregistration makes `clenup_old_ami` return `False` at once
(here `none`): the per-image records accumulated for the images already
processed in the pass are not returned to the caller. -/
theorem C4_prune_abort (dereg_ok : String → Bool) (utc days : Int)
    (pre post : List ImageInfo) (img : ImageInfo)
    (h1 : img.created_parsed < utc - days * secondsPerDay)
    (h2 : dereg_ok img.imageId = false)
    (h3 : ∀ p ∈ pre, dereg_ok p.imageId = true) :
    clenup_old_ami dereg_ok utc days (pre ++ img :: post) = none := by
  induction pre with
  | nil =>
    simp only [List.nil_append, clenup_old_ami]
    rw [if_pos h1, if_neg (by simp [h2])]
  | cons p ps ih =>
    have hstep : clenup_old_ami dereg_ok utc days (ps ++ img :: post) = none :=
      ih (fun q hq => h3 q (List.mem_cons_of_mem p hq))
    simp only [List.cons_append, clenup_old_ami]
    by_cases hc : p.created_parsed < utc - days * secondsPerDay
    · rw [if_pos hc, if_pos (h3 p (List.mem_cons_self p ps))]
      simp [List.append_eq, hstep]
    · rw [if_neg hc]
      simp [List.append_eq, hstep]

/-- C4 witness: a two-image pass where the second image is overdue and
its deregistration fails; the first image's record is lost. -/
theorem C4_prune_abort_witness :
    clenup_old_ami (fun s => s != "ami-bad") 0 7
        ([⟨"ami-ok", "egor-new", "2019-12-26T00:00:00.000Z", -518400, "available"⟩] ++
          ⟨"ami-bad", "egor-old", "2019-12-24T00:00:00.000Z", -691200, "available"⟩ ::
            []) = none :=
  C4_prune_abort (fun s => s != "ami-bad") 0 7 _ _ _ (by decide) (by decide)
    (by decide)

/-- C5: `get_http_status_code` composes its URL with the `https://`
scheme exactly when the port is 443 (else `http://`), returns the final
numeric status code when the HEAD request succeeds, and returns the
sentinel `False` (here `Except.ok none`), rather than raising, whenever
the request raises a `requests.ConnectionError` — which covers DNS
failure, refused connection, and connect timeout. -/
theorem C5_http_status (request : String → Except ReqError Nat)
    (host : String) (port : Nat) :
    (urlScheme port = "https://" ↔ port = 443) ∧
    (∀ c, request (urlScheme port ++ host) = Except.ok c →
      get_http_status_code request host port = Except.ok (some c)) ∧
    (∀ e, isConnectionError e = true →
      request (urlScheme port ++ host) = Except.error e →
      get_http_status_code request host port = Except.ok none) ∧
    isConnectionError ReqError.dnsFailure = true ∧
    isConnectionError ReqError.connRefused = true ∧
    isConnectionError ReqError.connTimeout = true := by
  refine ⟨?_, ?_, ?_, rfl, rfl, rfl⟩
  · unfold urlScheme
    by_cases hp : port = 443
    · simp [hp]
    · simp only [beq_iff_eq, if_neg hp]
      constructor
      · intro hcontra
        exact absurd hcontra (by decide)
      · intro hcontra
        exact absurd hcontra hp
  · intro c hc
    unfold get_http_status_code
    rw [hc]
  · intro e he hreq
    unfold get_http_status_code
    rw [hreq]
    simp [he]

/-- C5 witness: a successful HEAD on port 443 yields its status code,
and a DNS failure on port 80 yields the `False` sentinel. -/
theorem C5_http_status_witness :
    get_http_status_code (fun _ => Except.ok 200) "example.com" 443 =
      Except.ok (some 200) ∧
    get_http_status_code (fun _ => Except.error ReqError.dnsFailure)
      "example.com" 80 = Except.ok none :=
  ⟨(C5_http_status (fun _ => Except.ok 200) "example.com" 443).2.1 200 rfl,
   (C5_http_status (fun _ => Except.error ReqError.dnsFailure)
      "example.com" 80).2.2.1 ReqError.dnsFailure rfl rfl⟩

/-- C6 counterexample: when the inventory query raises a provider
client error, `get_instances` does NOT return a sequence of records at
all — the caught error is followed by an unbound-local failure that
propagates, so the call does not come back with a list. -/
theorem C6_counterexample :
    (get_instances (Except.error PyError.clientError)).isOk = false := rfl

/-- C6 (amended): when the inventory query raises, the exception is
caught and logged, but iterating the never-assigned `instances`
variable then raises an unbound-local error that propagates out of
`get_instances`; no empty or partial record list reaches the caller. -/
theorem C6_error_propagates (e : PyError) :
    get_instances (Except.error e) = Except.error PyError.unboundLocal ∧
    (get_instances (Except.error e)).isOk = false := by
  exact ⟨rfl, rfl⟩

/-- If no tag in the list has the given key, the fold of the
tag-scanning loop leaves the corresponding accumulator component
unchanged. -/
lemma scanTags_no_name (tags : List EC2Tag) (acc : Option String × Option String)
    (h : ∀ t ∈ tags, t.key ≠ "Name") :
    (tags.foldl
      (fun acc tag =>
        (if tag.key == "Name" then some tag.value else acc.1,
         if tag.key == "FQDN" then some tag.value else acc.2))
      acc).1 = acc.1 := by
  induction tags generalizing acc with
  | nil => rfl
  | cons t ts ih =>
    simp only [List.foldl_cons]
    rw [ih _ (fun u hu => h u (List.mem_cons_of_mem t hu))]
    have : (t.key == "Name") = false := by
      simp [h t (List.mem_cons_self t ts)]
    simp [this]

/-- Same for the `FQDN` component. -/
lemma scanTags_no_fqdn (tags : List EC2Tag) (acc : Option String × Option String)
    (h : ∀ t ∈ tags, t.key ≠ "FQDN") :
    (tags.foldl
      (fun acc tag =>
        (if tag.key == "Name" then some tag.value else acc.1,
         if tag.key == "FQDN" then some tag.value else acc.2))
      acc).2 = acc.2 := by
  induction tags generalizing acc with
  | nil => rfl
  | cons t ts ih =>
    simp only [List.foldl_cons]
    rw [ih _ (fun u hu => h u (List.mem_cons_of_mem t hu))]
    have : (t.key == "FQDN") = false := by
      simp [h t (List.mem_cons_self t ts)]
    simp [this]

/-- C7: for every provider instance, the record built by
`get_instances` has a null `instance_name` when no `Name` tag is
present and a null `instance_fqdn` when no `FQDN` tag is present, and
the listing of any instance collection succeeds (one record per
instance), never failing on account of absent tags. -/
theorem C7_absent_tags_null (inst : EC2Instance) :
    ((∀ t ∈ inst.tags, t.key ≠ "Name") →
      (instanceToRecord inst).instance_name = none) ∧
    ((∀ t ∈ inst.tags, t.key ≠ "FQDN") →
      (instanceToRecord inst).instance_fqdn = none) ∧
    (∀ insts : List EC2Instance,
      get_instances (Except.ok insts) = Except.ok (insts.map instanceToRecord)) := by
  refine ⟨?_, ?_, fun _ => rfl⟩
  · intro h
    unfold instanceToRecord scanTags
    exact scanTags_no_name inst.tags (none, none) h
  · intro h
    unfold instanceToRecord scanTags
    exact scanTags_no_fqdn inst.tags (none, none) h

/-- C7 witness: an instance whose only tag is neither `Name` nor
`FQDN` yields null name and fqdn fields. -/
theorem C7_absent_tags_null_witness :
    (instanceToRecord ⟨[⟨"Env", "prod"⟩], "i-1", "t2.micro", "running"⟩).instance_name
        = none ∧
    (instanceToRecord ⟨[⟨"Env", "prod"⟩], "i-1", "t2.micro", "running"⟩).instance_fqdn
        = none :=
  ⟨(C7_absent_tags_null ⟨[⟨"Env", "prod"⟩], "i-1", "t2.micro", "running"⟩).1
      (by decide),
   (C7_absent_tags_null ⟨[⟨"Env", "prod"⟩], "i-1", "t2.micro", "running"⟩).2.1
      (by decide)⟩

/-- C8 counterexample: `format_as_table` is not free of side effects on
the caller's rows list — with one row, a header, and no sort key, the
caller's list has been changed (the header and divider rows were
inserted at its front). -/
theorem C8_counterexample :
    (format_as_table [[("a", "x")]] ["a"] (some ["A"]) none false).2 ≠
      [[("a", "x")]] := by decide

/-- C8 (amended): the returned string is the only effect except that,
when a header is supplied and no sort key is given, the header and
divider rows are inserted at the front of the caller's rows list; when
a sort key is supplied (the sort rebinds the local name to a fresh
list) or no header is supplied, the caller's list is unchanged. -/
theorem C8_mutation_characterised (data : List Row) (keys : List String)
    (k : String) (h : List String) (rev : Bool) :
    (format_as_table data keys (some h) (some k) rev).2 = data ∧
    (format_as_table data keys none (some k) rev).2 = data ∧
    (format_as_table data keys none none rev).2 = data ∧
    (format_as_table data keys (some h) none rev).2 =
      headerRow keys h :: dividerRow keys h :: data :=
  ⟨rfl, rfl, rfl, rfl⟩

/-- C9: on rows `[{a: x, b: yy}, {a: zzz, b: w}]` with keys `[a, b]`
and header `[A, B]`, sorted by `a` descending, the computed column
widths are 3 for `a` and 2 for `b` (each the maximum rendered width of
the field over header, divider and data rows), the `zzz` row sorts
before the `x` row while the header and divider stay first, and the
rendered table is the corresponding left-justified text. -/
theorem C9_formatter_example :
    columnWidths ["a", "b"]
        (processedData [[("a", "x"), ("b", "yy")], [("a", "zzz"), ("b", "w")]]
          ["a", "b"] (some ["A", "B"]) (some "a") true) = [3, 2] ∧
    processedData [[("a", "x"), ("b", "yy")], [("a", "zzz"), ("b", "w")]]
        ["a", "b"] (some ["A", "B"]) (some "a") true =
      [headerRow ["a", "b"] ["A", "B"], dividerRow ["a", "b"] ["A", "B"],
       [("a", "zzz"), ("b", "w")], [("a", "x"), ("b", "yy")]] ∧
    (format_as_table [[("a", "x"), ("b", "yy")], [("a", "zzz"), ("b", "w")]]
        ["a", "b"] (some ["A", "B"]) (some "a") true).1 =
      "A   B \n-   - \nzzz w \nx   yy\n" := by
  refine ⟨by decide, by decide, ?_⟩
  rfl

/-- C10: every result record built by the probe loop of `main` with a
closed socket carries a null status code (the HTTP probe is skipped),
null is never a member of `http_valid_codes`, and consequently on such
records the retirement test collapses to `is_socket_open == false` and
`instance_state == 'stopped'`. -/
theorem C10_closed_socket_null_status
    (request : String → Except ReqError Nat) (inst : InstanceRecord)
    (sock_open : Bool) (r : ResultRecord)
    (h : build_result request inst sock_open = some r) :
    (r.is_socket_open = false → r.status_code = StatusCode.vNone) ∧
    statusInValidCodes StatusCode.vNone = false ∧
    retire_condition r =
      (!r.is_socket_open && (r.instance_state == "stopped")) := by
  cases sock_open with
  | false =>
    simp only [build_result, Bool.false_eq_true, if_false, Option.some.injEq] at h
    subst h
    exact ⟨fun _ => rfl, rfl, by unfold retire_condition; simp [statusInValidCodes]⟩
  | true =>
    rcases hres : get_http_status_code request (inst.instance_fqdn.getD "") 80
      with e | oc
    · simp only [build_result, if_true, hres] at h
      exact Option.noConfusion h
    · cases oc with
      | none =>
        simp only [build_result, if_true, hres, Option.some.injEq] at h
        subst h
        refine ⟨fun hfalse => absurd hfalse (by simp), rfl, ?_⟩
        unfold retire_condition
        simp
      | some c =>
        simp only [build_result, if_true, hres, Option.some.injEq] at h
        subst h
        refine ⟨fun hfalse => absurd hfalse (by simp), rfl, ?_⟩
        unfold retire_condition
        simp

/-- C10 witness: a stopped instance with a closed socket produces the
sample record, on which the invariant and the collapsed retirement test
hold. -/
theorem C10_closed_socket_null_status_witness :
    (sampleStopped.is_socket_open = false →
      sampleStopped.status_code = StatusCode.vNone) ∧
    statusInValidCodes StatusCode.vNone = false ∧
    retire_condition sampleStopped =
      (!sampleStopped.is_socket_open &&
        (sampleStopped.instance_state == "stopped")) :=
  C10_closed_socket_null_status (fun _ => Except.ok 200)
    ⟨none, none, "i-0abc", "t2.micro", "stopped"⟩ false sampleStopped rfl

end Routine
